import Mathlib

/-!
Verification development for the VidScribe serverless pipeline
(poller / processor / newsletter / cleanup Lambda handlers).

Shallow embedding conventions:
* DynamoDB items are structures whose attributes are `Option`-typed
  (an absent attribute is `none`); `update_item` with `SET` on a
  missing item creates it, so updates take `Option VideoItem` and
  return `VideoItem`.
* ISO-8601 timestamps produced by `datetime.now(timezone.utc).isoformat()`
  are modelled as integer epoch seconds: all stored timestamps share one
  format, for which lexicographic string order coincides with
  chronological order, so `<=` on integers is faithful to the string
  comparisons in the DynamoDB filter/key-condition expressions.
  `timedelta(days = d)` is `86400 * d` seconds.
* Network calls are modelled by their outcome: the transcript fetch by a
  `FetchOutcome` value, the LLM call by an `Option String`, SQS sends and
  DynamoDB write errors by booleans.
-/

namespace VidScribe

/-- Policy constant `MAX_TRANSCRIPT_RETRIES` from src/processor/handler.py. -/
def MAX_TRANSCRIPT_RETRIES : Nat := 3

/-- Policy constant `RETRY_SCHEDULE_DAYS = [1, 3, 5]` from src/processor/handler.py. -/
def RETRY_SCHEDULE_DAYS : List Nat := [1, 3, 5]

/-- One DynamoDB item at key `(VIDEO#<id>, METADATA)`.  Every attribute other
than the key is optional because items may be created by partial `SET`
updates.  Timestamp-valued attributes are epoch seconds (see module header);
`published_at` stays a string because the source only copies it around. -/
structure VideoItem where
  video_id : String := ""
  title : Option String := none
  channel_id : Option String := none
  channel_title : Option String := none
  published_at : Option String := none
  description : Option String := none
  status : Option String := none
  error : Option String := none
  failure_reason : Option String := none
  failed_at : Option Int := none
  retry_count : Option Nat := none
  first_failed_at : Option Int := none
  next_retry_at : Option Int := none
  queued_at : Option Int := none
  processed_at : Option Int := none
  summary : Option String := none
  ttl : Option Int := none
deriving DecidableEq, Repr

/-- Return value of `get_retry_state` (src/processor/handler.py:479-504):
a dict with defaults `retry_count = 0`, `first_failed_at = ""`,
`failure_reason = ""`, `status = ""`.  The empty-string default for
`first_failed_at` (falsy in `state.get(...) or now_iso`) is modelled as
`none`; stored values are always real timestamps. -/
structure RetryState where
  retry_count : Nat
  first_failed_at : Option Int
  failure_reason : String
  status : String
deriving DecidableEq, Repr

/-- `get_retry_state` reads the item (absent item gives the empty dict, so
every field takes its default). -/
def get_retry_state (item : Option VideoItem) : RetryState :=
  match item with
  | none => { retry_count := 0, first_failed_at := none, failure_reason := "", status := "" }
  | some it =>
      { retry_count := it.retry_count.getD 0
        first_failed_at := it.first_failed_at
        failure_reason := it.failure_reason.getD ""
        status := it.status.getD "" }

/-- `mark_video_failed` (src/processor/handler.py:507-613).  For
`failure_reason = "NO_TRANSCRIPT"` it reads the retry state, increments the
count, and either marks the video `PERMANENTLY_FAILED` /
`NO_TRANSCRIPT_EXHAUSTED` (when `new_retry_count >= MAX_TRANSCRIPT_RETRIES`)
or schedules the next retry from `RETRY_SCHEDULE_DAYS`; any other reason is a
single terminal write.  `error[:500]` and `failure_reason[:100]` become
`String.take`. -/
def mark_video_failed (item : Option VideoItem) (now : Int)
    (error : String) (failure_reason : String) : VideoItem :=
  let base := item.getD {}
  if failure_reason = "NO_TRANSCRIPT" then
    let state := get_retry_state item
    let current_retry := state.retry_count
    let first_failed := state.first_failed_at.getD now
    let new_retry_count := current_retry + 1
    if MAX_TRANSCRIPT_RETRIES ≤ new_retry_count then
      { base with
          status := some "PERMANENTLY_FAILED"
          error := some (error.take 500)
          failure_reason := some "NO_TRANSCRIPT_EXHAUSTED"
          failed_at := some now
          retry_count := some new_retry_count
          first_failed_at := some first_failed }
    else
      let days_until_retry :=
        RETRY_SCHEDULE_DAYS.getD
          (min (new_retry_count - 1) (RETRY_SCHEDULE_DAYS.length - 1)) 0
      let next_retry : Int := now + 86400 * (days_until_retry : Int)
      { base with
          status := some "FAILED"
          error := some (error.take 500)
          failure_reason := some "NO_TRANSCRIPT"
          failed_at := some now
          retry_count := some new_retry_count
          first_failed_at := some first_failed
          next_retry_at := some next_retry }
  else
    { base with
        status := some "FAILED"
        error := some (error.take 500)
        failure_reason := some (failure_reason.take 100)
        failed_at := some now }

/-- Abbreviation for a `record_failure` call with reason `NO_TRANSCRIPT`. -/
def markNT (item : Option VideoItem) (now : Int) (e : String) : VideoItem :=
  mark_video_failed item now e "NO_TRANSCRIPT"

/-- Iterated `NO_TRANSCRIPT` failure recording: each list entry is the
`(now, error)` pair of one further `mark_video_failed` call. -/
def markNTiter (s : VideoItem) (l : List (Int × String)) : VideoItem :=
  l.foldl (fun it p => markNT (some it) p.1 p.2) s

/-- Outcome of the underlying youtube-transcript-api interaction inside
`get_transcript` (src/processor/handler.py:141-240): either a transcript
text was obtained, or no usable track was found (`NoTranscriptFound`
everywhere and translation failed, i.e. the `transcript is None` path), or
one of the exception classes the source handles was raised. -/
inductive FetchOutcome where
  | success (text : String)
  | noUsable
  | blocked (msg : String)
  | disabled
  | unavailable
  | otherError
deriving DecidableEq, Repr

/-- What `get_transcript` does for the caller: return a text, return `None`,
or raise `TranscriptBlockedError` carrying a message. -/
inductive TranscriptResult where
  | ok (text : String)
  | noneResult
  | blockedError (msg : String)
deriving DecidableEq, Repr

/-- Character budget `max_chars = 30000` in `get_transcript`. -/
def transcriptMaxChars : Nat := 30000

/-- `get_transcript` (src/processor/handler.py:141-240).  `IpBlocked` /
`RequestBlocked` are re-raised as `TranscriptBlockedError`; `NoTranscriptFound`
(no usable track), `TranscriptsDisabled`, `VideoUnavailable` and any other
exception all fall through to `return None`; a retrieved text longer than the
budget is truncated with an explicit marker. -/
def get_transcript (o : FetchOutcome) : TranscriptResult :=
  match o with
  | .success t =>
      if transcriptMaxChars < t.length then
        .ok (t.take transcriptMaxChars ++ "... [transcript truncated]")
      else .ok t
  | .noUsable => .noneResult
  | .blocked m =>
      .blockedError ("YouTube blocked transcript requests from this environment: " ++ m)
  | .disabled => .noneResult
  | .unavailable => .noneResult
  | .otherError => .noneResult

/-- Body of one SQS record as the processor sees it: either `json.loads`
raises (`malformed`), or it yields a dict whose relevant keys may each be
present or absent (an absent key raises `KeyError` at its first access). -/
inductive SqsBody where
  | malformed
  | json (video_id title channel_title channel_id : Option String)
      (published_at : Option String)
deriving DecidableEq, Repr

/-- One record of the SQS event. -/
structure SqsRecord where
  messageId : String
  body : SqsBody
deriving DecidableEq, Repr

/-- Outcomes of the external calls made while processing one record: the
transcript fetch, the `generate_summary` LLM call (`none` = no usable text),
and whether `save_summary` hits a DynamoDB `ClientError`. -/
structure ProcEnv where
  fetch : FetchOutcome
  summaryResult : Option String
  saveClientError : Bool
deriving DecidableEq, Repr

/-- One DynamoDB write issued while processing a record: a
`mark_video_failed` call with a failure reason, the `PROCESSED` metadata
update, or the summary-record put. -/
inductive DbWrite where
  | markFailed (video_id reason error : String)
  | markProcessed (video_id summary : String)
  | putSummary (video_id summary : String)
deriving DecidableEq, Repr

/-- Result of processing one SQS record: whether its messageId is reported
as a batch item failure, and the DynamoDB writes performed. -/
structure StepResult where
  batchFailure : Bool
  writes : List DbWrite
deriving DecidableEq, Repr

/-- The per-record part of the processor `lambda_handler`
(src/processor/handler.py:664-726).  A `json.JSONDecodeError` is caught and
the record dropped without retry; a `KeyError` on `video_id` or `title`
(raised after `json.loads`, before any DynamoDB call) falls into the generic
`except` and reports the record as a batch failure; `TranscriptBlockedError`
marks the video `YOUTUBE_BLOCKED`; a `None` transcript marks it
`NO_TRANSCRIPT`; a failed LLM call or a failed save reports a batch failure.
A missing `channel_id` / `published_at` key raises `KeyError` inside
`save_summary` after its first update already ran. -/
def processRecord (env : ProcEnv) (r : SqsRecord) : StepResult :=
  match r.body with
  | .malformed => { batchFailure := false, writes := [] }
  | .json vid title ctitle cid pub =>
    match vid with
    | none => { batchFailure := true, writes := [] }
    | some v =>
      match title with
      | none => { batchFailure := true, writes := [] }
      | some _ =>
        match get_transcript env.fetch with
        | .blockedError m =>
            { batchFailure := false, writes := [.markFailed v "YOUTUBE_BLOCKED" m] }
        | .noneResult =>
            { batchFailure := false,
              writes := [.markFailed v "NO_TRANSCRIPT" "Failed to retrieve transcript"] }
        | .ok _ =>
          match ctitle with
          | none => { batchFailure := true, writes := [] }
          | some _ =>
            match env.summaryResult with
            | none => { batchFailure := true, writes := [] }
            | some s =>
              if env.saveClientError then { batchFailure := true, writes := [] }
              else
                match cid, pub with
                | some _, some _ =>
                    { batchFailure := false, writes := [.markProcessed v s, .putSummary v s] }
                | _, _ => { batchFailure := true, writes := [.markProcessed v s] }

/-- Aggregate result of the processor `lambda_handler`: the
`batchItemFailures` identifiers returned to SQS and all DynamoDB writes. -/
structure HandlerResult where
  batchItemFailures : List String
  writes : List DbWrite
deriving DecidableEq, Repr

/-- The processor `lambda_handler` loop over `event["Records"]`, each record
paired with the outcomes of its external calls. -/
def lambdaHandler : List (SqsRecord × ProcEnv) → HandlerResult
  | [] => { batchItemFailures := [], writes := [] }
  | (r, e) :: rest =>
      let res := processRecord e r
      let next := lambdaHandler rest
      { batchItemFailures :=
          (if res.batchFailure then [r.messageId] else []) ++ next.batchItemFailures
        writes := res.writes ++ next.writes }

/-- Video metadata the poller extracts from one YouTube search result
(src/poller/handler.py:125-137). -/
structure VideoInfo where
  video_id : String
  title : String
  channel_id : String
  channel_title : String
  published_at : String
  description : String
deriving DecidableEq, Repr

/-- The item written by `mark_video_queued`'s `put_item`
(src/poller/handler.py:196-212). -/
def queuedItem (v : VideoInfo) (now ttl : Int) : VideoItem :=
  { video_id := v.video_id
    title := some v.title
    channel_id := some v.channel_id
    channel_title := some v.channel_title
    published_at := some v.published_at
    description := some v.description
    status := some "QUEUED"
    queued_at := some now
    ttl := some ttl }

/-- `mark_video_queued` (src/poller/handler.py:181-219): a conditional
`put_item` with `ConditionExpression = attribute_not_exists(pk)`.  When an
item already exists at the key the put raises
`ConditionalCheckFailedException`, the function returns `False` and the
stored item is untouched; otherwise the `QUEUED` item is written and the
function returns `True`. -/
def mark_video_queued : Option VideoItem → VideoInfo → Int → Int → Bool × Option VideoItem
  | some it, _, _, _ => (false, some it)
  | none, v, now, ttl => (true, some (queuedItem v now ttl))

/-- What the poller does with one discovered video. -/
inductive PollOutcome where
  | queued
  | skipped
  | sendFailed
deriving DecidableEq, Repr

/-- `is_video_processed` (src/poller/handler.py:157-178): `get_item` and
test whether an item exists. -/
def is_video_processed (item : Option VideoItem) : Bool :=
  item.isSome

/-- The per-video body of the poller `lambda_handler`
(src/poller/handler.py:399-415): skip if the record exists, else
conditionally create it, and only on a successful create send to SQS. -/
def pollerVideoStep (item : Option VideoItem) (v : VideoInfo) (now ttl : Int)
    (sendOk : Bool) : PollOutcome × Option VideoItem :=
  if is_video_processed item then (.skipped, item)
  else
    let created := mark_video_queued item v now ttl
    if created.1 then
      if sendOk then (.queued, created.2) else (.sendFailed, created.2)
    else (.skipped, created.2)

/-- Filter expression of the retry sweep's scan
(src/poller/handler.py:280-291):
`status = FAILED AND failure_reason = NO_TRANSCRIPT AND next_retry_at <= now`.
A missing `next_retry_at` attribute makes the comparison false. -/
def retryEligible (now : Int) (it : VideoItem) : Bool :=
  decide (it.status = some "FAILED")
    && decide (it.failure_reason = some "NO_TRANSCRIPT")
    && (match it.next_retry_at with
        | some tr => decide (tr ≤ now)
        | none => false)

/-- `requeue_retryable_videos` (src/poller/handler.py:262-328).  The table's
contents are modelled as the pages a DynamoDB scan would return (the filter
expression applies per returned page).  The source issues a single
`table.scan` call and never reads `LastEvaluatedKey`, so only the first page
is examined; the items passing the filter are sent to SQS.  The function
performs no table writes, so the store is returned unchanged. -/
def requeue_retryable_videos (pages : List (List VideoItem)) (now : Int) :
    List VideoItem × List (List VideoItem) :=
  ((pages.headD []).filter (retryEligible now), pages)

/-- One DynamoDB item at key `(SUMMARY#<id>, DATA)`, restricted to the
attributes the newsletter reads or writes.  `gsi1sk` is the
`summarized_at` timestamp used as the GSI1 range key. -/
structure SummaryItem where
  video_id : String
  gsi1sk : Int
  newsletter_sent_at : Option Int := none
  newsletter_sent_count : Option Nat := none
deriving DecidableEq, Repr

/-- Seven days in seconds: the `timedelta(days = 7)` window of
`get_weekly_summaries`. -/
def WEEK_SECONDS : Int := 7 * 86400

/-- Query predicate of `get_weekly_summaries`
(src/newsletter/handler.py:324-372): key condition
`gsi1sk >= now - 7 days` and filter
`attribute_not_exists(newsletter_sent_at)`. -/
def weeklyPred (now : Int) (s : SummaryItem) : Bool :=
  s.newsletter_sent_at.isNone && decide (now - WEEK_SECONDS ≤ s.gsi1sk)

/-- `get_weekly_summaries`: the query loop follows `LastEvaluatedKey` until
exhaustion, so every summary item satisfying the key condition and filter is
returned. -/
def get_weekly_summaries (items : List SummaryItem) (now : Int) : List SummaryItem :=
  items.filter (weeklyPred now)

/-- The per-summary `update_item` of `mark_summaries_sent`
(src/newsletter/handler.py:396-410):
`newsletter_sent_at = if_not_exists(newsletter_sent_at, sent_at)` and
`newsletter_sent_count = if_not_exists(newsletter_sent_count, 0) + 1`. -/
def mark_summary_sent (s : SummaryItem) (sent_at : Int) : SummaryItem :=
  { s with
      newsletter_sent_at := some (s.newsletter_sent_at.getD sent_at)
      newsletter_sent_count := some (s.newsletter_sent_count.getD 0 + 1) }

end VidScribe

namespace VidScribe

theorem markNT_sched_eq (item : Option VideoItem) (t : Int) (e : String)
    (h : (get_retry_state item).retry_count + 1 < MAX_TRANSCRIPT_RETRIES) :
    markNT item t e =
      { item.getD {} with
          status := some "FAILED"
          error := some (e.take 500)
          failure_reason := some "NO_TRANSCRIPT"
          failed_at := some t
          retry_count := some ((get_retry_state item).retry_count + 1)
          first_failed_at := some ((get_retry_state item).first_failed_at.getD t)
          next_retry_at := some (t + 86400 * ((RETRY_SCHEDULE_DAYS.getD
            (min ((get_retry_state item).retry_count + 1 - 1)
              (RETRY_SCHEDULE_DAYS.length - 1)) 0 : Nat) : Int)) } := by
  simp only [markNT, mark_video_failed]
  split
  · split
    · rename_i hy; exact absurd hy (not_le.mpr h)
    · rfl
  · rename_i hn; exact absurd trivial hn

theorem markNT_exhaust_eq (item : Option VideoItem) (t : Int) (e : String)
    (h : MAX_TRANSCRIPT_RETRIES ≤ (get_retry_state item).retry_count + 1) :
    markNT item t e =
      { item.getD {} with
          status := some "PERMANENTLY_FAILED"
          error := some (e.take 500)
          failure_reason := some "NO_TRANSCRIPT_EXHAUSTED"
          failed_at := some t
          retry_count := some ((get_retry_state item).retry_count + 1)
          first_failed_at := some ((get_retry_state item).first_failed_at.getD t) } := by
  simp only [markNT, mark_video_failed]
  split
  · rfl
  · rename_i hn; exact absurd trivial hn

theorem get_retry_state_count (it : VideoItem) :
    (get_retry_state (some it)).retry_count = it.retry_count.getD 0 := rfl

theorem get_retry_state_first (it : VideoItem) :
    (get_retry_state (some it)).first_failed_at = it.first_failed_at := rfl

theorem markNT_retry_count (item : Option VideoItem) (t : Int) (e : String) :
    (markNT item t e).retry_count = some ((get_retry_state item).retry_count + 1) := by
  rcases lt_or_le ((get_retry_state item).retry_count + 1) MAX_TRANSCRIPT_RETRIES with h | h
  · rw [markNT_sched_eq item t e h]
  · rw [markNT_exhaust_eq item t e h]

theorem markNT_first_failed (item : Option VideoItem) (t : Int) (e : String) :
    (markNT item t e).first_failed_at
      = some ((get_retry_state item).first_failed_at.getD t) := by
  rcases lt_or_le ((get_retry_state item).retry_count + 1) MAX_TRANSCRIPT_RETRIES with h | h
  · rw [markNT_sched_eq item t e h]
  · rw [markNT_exhaust_eq item t e h]

theorem markNTiter_first_failed :
    ∀ (l : List (Int × String)) (s : VideoItem) (f : Int),
      s.first_failed_at = some f → (markNTiter s l).first_failed_at = some f := by
  intro l
  induction l with
  | nil => intro s f hf; simpa [markNTiter] using hf
  | cons p rest ih =>
      intro s f hf
      have hstep : (markNT (some s) p.1 p.2).first_failed_at = some f := by
        rw [markNT_first_failed]
        simp [get_retry_state, hf]
      simpa [markNTiter] using ih (markNT (some s) p.1 p.2) f hstep

theorem markNTiter_retry_count :
    ∀ (l : List (Int × String)) (s : VideoItem) (c : Nat),
      s.retry_count = some c → (markNTiter s l).retry_count = some (c + l.length) := by
  intro l
  induction l with
  | nil => intro s c hc; simpa [markNTiter] using hc
  | cons p rest ih =>
      intro s c hc
      have hstep : (markNT (some s) p.1 p.2).retry_count = some (c + 1) := by
        rw [markNT_retry_count]
        simp [get_retry_state, hc]
      have := ih (markNT (some s) p.1 p.2) (c + 1) hstep
      simpa [markNTiter, Nat.add_assoc, Nat.add_comm, Nat.add_left_comm] using this

/-- C1: starting from a record with no prior retries, after exactly
`MAX_TRANSCRIPT_RETRIES - 1 = 2` consecutive `NO_TRANSCRIPT` failure
recordings the record is `FAILED` with `next_retry_at` populated and
strictly greater than `failed_at`, and after the third it is
`PERMANENTLY_FAILED` / `NO_TRANSCRIPT_EXHAUSTED` with
`retry_count = MAX_TRANSCRIPT_RETRIES`. -/
theorem no_transcript_retry_exhaustion
    (item0 : Option VideoItem) (t1 t2 t3 : Int) (e1 e2 e3 : String)
    (h0 : (get_retry_state item0).retry_count = 0) :
    ((markNT (some (markNT item0 t1 e1)) t2 e2).status = some "FAILED"
      ∧ (markNT (some (markNT item0 t1 e1)) t2 e2).failed_at = some t2
      ∧ (markNT (some (markNT item0 t1 e1)) t2 e2).next_retry_at = some (t2 + 86400 * 3)
      ∧ t2 < t2 + 86400 * 3)
    ∧ ((markNT (some (markNT (some (markNT item0 t1 e1)) t2 e2)) t3 e3).status
          = some "PERMANENTLY_FAILED"
      ∧ (markNT (some (markNT (some (markNT item0 t1 e1)) t2 e2)) t3 e3).failure_reason
          = some "NO_TRANSCRIPT_EXHAUSTED"
      ∧ (markNT (some (markNT (some (markNT item0 t1 e1)) t2 e2)) t3 e3).retry_count
          = some MAX_TRANSCRIPT_RETRIES) := by
  have h1 : (get_retry_state (some (markNT item0 t1 e1))).retry_count = 1 := by
    rw [get_retry_state_count, markNT_retry_count, h0]
    rfl
  have h2 : (get_retry_state (some (markNT (some (markNT item0 t1 e1)) t2 e2))).retry_count = 2 := by
    rw [get_retry_state_count, markNT_retry_count, h1]
    rfl
  have hs2 := markNT_sched_eq (some (markNT item0 t1 e1)) t2 e2
    (by rw [h1]; decide)
  have hs3 := markNT_exhaust_eq (some (markNT (some (markNT item0 t1 e1)) t2 e2)) t3 e3
    (by rw [h2]; decide)
  rw [h1] at hs2
  rw [h2] at hs3
  refine ⟨⟨?_, ?_, ?_, by omega⟩, ?_, ?_, ?_⟩
  · rw [hs2]
  · rw [hs2]
  · rw [hs2]; simp [RETRY_SCHEDULE_DAYS]
  · rw [hs3]
  · rw [hs3]
  · rw [hs3]; rfl

/-- C1 witness: the exhaustion theorem evaluated on a fresh (absent) record
with concrete times. -/
theorem no_transcript_retry_exhaustion_witness :
    (get_retry_state none).retry_count = 0
    ∧ (((markNT (some (markNT none 0 "a")) 10 "b").status = some "FAILED"
        ∧ (markNT (some (markNT none 0 "a")) 10 "b").failed_at = some 10
        ∧ (markNT (some (markNT none 0 "a")) 10 "b").next_retry_at = some (10 + 86400 * 3)
        ∧ (10 : Int) < 10 + 86400 * 3)
      ∧ ((markNT (some (markNT (some (markNT none 0 "a")) 10 "b")) 20 "c").status
            = some "PERMANENTLY_FAILED"
        ∧ (markNT (some (markNT (some (markNT none 0 "a")) 10 "b")) 20 "c").failure_reason
            = some "NO_TRANSCRIPT_EXHAUSTED"
        ∧ (markNT (some (markNT (some (markNT none 0 "a")) 10 "b")) 20 "c").retry_count
            = some MAX_TRANSCRIPT_RETRIES)) :=
  ⟨by decide, no_transcript_retry_exhaustion none 0 10 20 "a" "b" "c" (by decide)⟩

/-- C3: every `record_failure(NO_TRANSCRIPT)` call increments `retry_count`
by exactly 1 (from any prior state, default 0), and `first_failed_at` keeps,
after every later call of an arbitrary sequence, the value it had after the
first call. -/
theorem no_transcript_retry_invariants
    (item : Option VideoItem) (t : Int) (e : String) (rest : List (Int × String)) :
    (markNT item t e).retry_count = some ((get_retry_state item).retry_count + 1)
    ∧ (markNTiter (markNT item t e) rest).first_failed_at
        = (markNT item t e).first_failed_at
    ∧ (markNTiter (markNT item t e) rest).retry_count
        = some ((get_retry_state item).retry_count + 1 + rest.length) := by
  refine ⟨markNT_retry_count item t e, ?_, ?_⟩
  · rw [markNT_first_failed]
    exact markNTiter_first_failed rest (markNT item t e)
      ((get_retry_state item).first_failed_at.getD t) (markNT_first_failed item t e)
  · exact markNTiter_retry_count rest (markNT item t e)
      ((get_retry_state item).retry_count + 1) (markNT_retry_count item t e)

/-- C4: a non-exhausting `NO_TRANSCRIPT` recording writes
`next_retry_at = now + wait`, the wait taken from `RETRY_SCHEDULE_DAYS`
(in days, i.e. 86400-second units) indexed by the pre-increment
`retry_count` clamped to the last schedule entry. -/
theorem no_transcript_retry_schedule
    (item : Option VideoItem) (t : Int) (e : String)
    (h : (get_retry_state item).retry_count + 1 < MAX_TRANSCRIPT_RETRIES) :
    (markNT item t e).next_retry_at
      = some (t + 86400 * (RETRY_SCHEDULE_DAYS.getD
          (min (get_retry_state item).retry_count (RETRY_SCHEDULE_DAYS.length - 1)) 0 : Nat)) := by
  rw [markNT_sched_eq item t e h]
  simp

/-- C4 witness: the schedule theorem evaluated on a fresh record at time 0;
the first retry waits `RETRY_SCHEDULE_DAYS[0] = 1` day. -/
theorem no_transcript_retry_schedule_witness :
    (get_retry_state none).retry_count + 1 < MAX_TRANSCRIPT_RETRIES
    ∧ (markNT none 0 "x").next_retry_at
        = some (0 + 86400 * (RETRY_SCHEDULE_DAYS.getD
            (min (get_retry_state none).retry_count (RETRY_SCHEDULE_DAYS.length - 1)) 0 : Nat)) :=
  ⟨by decide, no_transcript_retry_schedule none 0 "x" (by decide)⟩

/-- C2 counterexample: with the transcript fetch ending in
`TranscriptsDisabled`, the pipeline records failure_reason `NO_TRANSCRIPT`
(not `TRANSCRIPTS_DISABLED`), and that write is not terminal: a fresh record
marked this way gets a populated `next_retry_at`, i.e. it enters the
`NO_TRANSCRIPT` retry schedule. -/
theorem disabled_reason_counterexample :
    (processRecord ⟨.disabled, none, false⟩
        ⟨"m1", .json (some "vid1") (some "T") (some "C") (some "ci") (some "p")⟩).writes
      = [DbWrite.markFailed "vid1" "NO_TRANSCRIPT" "Failed to retrieve transcript"]
    ∧ "NO_TRANSCRIPT" ≠ "TRANSCRIPTS_DISABLED"
    ∧ (markNT none 0 "Failed to retrieve transcript").next_retry_at = some 86400 := by
  decide

/-- C2 (amended): a fetch ending in `TranscriptsDisabled`,
`VideoUnavailable`, or with no usable track (`NoTranscriptFound`) leads to
the same recorded failure: reason `NO_TRANSCRIPT`, no batch item failure; no
distinct `TRANSCRIPTS_DISABLED` / `VIDEO_UNAVAILABLE` reason is written, and
all three outcomes feed the `NO_TRANSCRIPT` retry schedule (on a fresh
record the write populates `next_retry_at = now + 1 day`). -/
theorem transcript_absence_collapses
    (v tl ct ci pa msgid : String) (sumr : Option String) (sc : Bool) :
    (processRecord ⟨.disabled, sumr, sc⟩
        ⟨msgid, .json (some v) (some tl) (some ct) (some ci) (some pa)⟩
      = { batchFailure := false,
          writes := [.markFailed v "NO_TRANSCRIPT" "Failed to retrieve transcript"] })
    ∧ (processRecord ⟨.unavailable, sumr, sc⟩
        ⟨msgid, .json (some v) (some tl) (some ct) (some ci) (some pa)⟩
      = { batchFailure := false,
          writes := [.markFailed v "NO_TRANSCRIPT" "Failed to retrieve transcript"] })
    ∧ (processRecord ⟨.noUsable, sumr, sc⟩
        ⟨msgid, .json (some v) (some tl) (some ct) (some ci) (some pa)⟩
      = { batchFailure := false,
          writes := [.markFailed v "NO_TRANSCRIPT" "Failed to retrieve transcript"] })
    ∧ ∀ (t : Int) (e : String), (markNT none t e).next_retry_at = some (t + 86400 * 1) := by
  refine ⟨rfl, rfl, rfl, fun t e => ?_⟩
  rw [markNT_sched_eq none t e (by decide)]
  rfl

/-- C5 counterexample: a rate-limit/blocked signal from the platform does
not end in a transient batch failure: the handler performs a video-record
state write (`YOUTUBE_BLOCKED`) and does not report the item back to the
queue. -/
theorem rate_limit_counterexample :
    (processRecord ⟨.blocked "HTTP 429 rate limited", none, false⟩
        ⟨"m1", .json (some "vid2") (some "T") (some "C") (some "ci") (some "p")⟩).batchFailure
      = false
    ∧ (processRecord ⟨.blocked "HTTP 429 rate limited", none, false⟩
        ⟨"m1", .json (some "vid2") (some "T") (some "C") (some "ci") (some "p")⟩).writes
      ≠ [] := by
  decide

/-- C5 (amended): on a rate-limit or blocked signal (`IpBlocked` /
`RequestBlocked`) the fetcher performs no backoff retries: `get_transcript`
raises `TranscriptBlockedError` directly, and the handler records the
failure on the video record with reason `YOUTUBE_BLOCKED` without reporting
the item back to the queue for redelivery. -/
theorem blocked_signal_handling
    (m v tl ct ci pa msgid : String) (sumr : Option String) (sc : Bool) :
    get_transcript (.blocked m)
      = .blockedError ("YouTube blocked transcript requests from this environment: " ++ m)
    ∧ processRecord ⟨.blocked m, sumr, sc⟩
        ⟨msgid, .json (some v) (some tl) (some ct) (some ci) (some pa)⟩
      = { batchFailure := false,
          writes := [.markFailed v "YOUTUBE_BLOCKED"
            ("YouTube blocked transcript requests from this environment: " ++ m)] } :=
  ⟨rfl, rfl⟩

/-- C10: a record whose body is valid JSON but lacks `video_id` or `title`
is reported as a batch item failure (its messageId is returned to SQS for
redelivery) with no DynamoDB write; a record whose body fails JSON parsing
is dropped: no batch item failure and no write. -/
theorem missing_field_vs_malformed
    (env : ProcEnv) (msgid v : String) (tl ct ci pa : Option String) :
    (processRecord env ⟨msgid, .json none tl ct ci pa⟩
        = { batchFailure := true, writes := [] })
    ∧ (processRecord env ⟨msgid, .json (some v) none ct ci pa⟩
        = { batchFailure := true, writes := [] })
    ∧ (processRecord env ⟨msgid, .malformed⟩ = { batchFailure := false, writes := [] })
    ∧ (lambdaHandler [(⟨msgid, .json none tl ct ci pa⟩, env)]
        = { batchItemFailures := [msgid], writes := [] })
    ∧ (lambdaHandler [(⟨msgid, .malformed⟩, env)]
        = { batchItemFailures := [], writes := [] }) :=
  ⟨rfl, rfl, rfl, rfl, rfl⟩

/-- C6: the retry sweep issues a single scan call and ignores
`LastEvaluatedKey`, so an eligible record sitting on the second scan page is
never re-enqueued even though it satisfies
status=FAILED / failure_reason=NO_TRANSCRIPT / next_retry_at ≤ now; the
first page's eligible record is re-enqueued and the store (including every
retry_count) is left unchanged. -/
theorem retry_sweep_ignores_later_pages :
    retryEligible 100
      { video_id := "v2", status := some "FAILED",
        failure_reason := some "NO_TRANSCRIPT",
        next_retry_at := some 50, retry_count := some 1 } = true
    ∧ (requeue_retryable_videos
        [[{ video_id := "v1", status := some "FAILED",
            failure_reason := some "NO_TRANSCRIPT",
            next_retry_at := some 50, retry_count := some 1 }],
         [{ video_id := "v2", status := some "FAILED",
            failure_reason := some "NO_TRANSCRIPT",
            next_retry_at := some 50, retry_count := some 1 }]] 100).1
      = [{ video_id := "v1", status := some "FAILED",
           failure_reason := some "NO_TRANSCRIPT",
           next_retry_at := some 50, retry_count := some 1 }]
    ∧ ({ video_id := "v2", status := some "FAILED",
         failure_reason := some "NO_TRANSCRIPT",
         next_retry_at := some 50, retry_count := some 1 } : VideoItem)
        ∉ (requeue_retryable_videos
            [[{ video_id := "v1", status := some "FAILED",
                failure_reason := some "NO_TRANSCRIPT",
                next_retry_at := some 50, retry_count := some 1 }],
             [{ video_id := "v2", status := some "FAILED",
                failure_reason := some "NO_TRANSCRIPT",
                next_retry_at := some 50, retry_count := some 1 }]] 100).1
    ∧ (requeue_retryable_videos
        [[{ video_id := "v1", status := some "FAILED",
            failure_reason := some "NO_TRANSCRIPT",
            next_retry_at := some 50, retry_count := some 1 }],
         [{ video_id := "v2", status := some "FAILED",
            failure_reason := some "NO_TRANSCRIPT",
            next_retry_at := some 50, retry_count := some 1 }]] 100).2
      = [[{ video_id := "v1", status := some "FAILED",
            failure_reason := some "NO_TRANSCRIPT",
            next_retry_at := some 50, retry_count := some 1 }],
         [{ video_id := "v2", status := some "FAILED",
            failure_reason := some "NO_TRANSCRIPT",
            next_retry_at := some 50, retry_count := some 1 }]] := by
  decide

/-- C7: the conditional `QUEUED` put succeeds exactly once per video ID: the
first call creates the record, the second returns the already-exists signal
and leaves the stored record unmodified, and for an existing record the
poller's per-video step skips without enqueueing. -/
theorem create_if_absent_dedup
    (v v2 : VideoInfo) (n n2 t t2 : Int) (sendOk : Bool) (x : VideoItem) :
    (mark_video_queued none v n t).1 = true
    ∧ mark_video_queued (mark_video_queued none v n t).2 v2 n2 t2
        = (false, (mark_video_queued none v n t).2)
    ∧ pollerVideoStep (some x) v2 n2 t2 sendOk = (.skipped, some x) :=
  ⟨rfl, rfl, rfl⟩

/-- C8 counterexample: with now = 2024-01-15T00:00:00Z (epoch 1705276800), a
summary timestamped exactly 7 days earlier (2024-01-08T00:00:00Z, epoch
1704672000) is INCLUDED by `get_weekly_summaries` (the key condition is
`gsi1sk >= now - 7 days`), while the claim says exactly-7-days-old is
excluded. -/
theorem weekly_window_boundary_counterexample :
    (1705276800 : Int) - 1704672000 = WEEK_SECONDS
    ∧ get_weekly_summaries [{ video_id := "s0", gsi1sk := 1704672000 }] 1705276800
        = [{ video_id := "s0", gsi1sk := 1704672000 }] := by
  decide

/-- C8 (amended): digest compilation selects a summary iff its
`newsletter_sent_at` is unset and its timestamp is at least `now - 7 days`
(boundary inclusive: exactly 7 days old is included); with
now = 2024-01-15T00:00:00Z, a summary at 2024-01-08T00:00:01Z is included,
one at 2024-01-07T23:59:59Z is excluded, and one inside the window with
`newsletter_sent_at` set is excluded. -/
theorem weekly_digest_selection :
    (∀ (items : List SummaryItem) (now : Int) (s : SummaryItem),
      s ∈ get_weekly_summaries items now
        ↔ (s ∈ items ∧ s.newsletter_sent_at = none ∧ now - WEEK_SECONDS ≤ s.gsi1sk))
    ∧ get_weekly_summaries [{ video_id := "a", gsi1sk := 1704672001 }] 1705276800
        = [{ video_id := "a", gsi1sk := 1704672001 }]
    ∧ get_weekly_summaries [{ video_id := "b", gsi1sk := 1704671999 }] 1705276800 = []
    ∧ get_weekly_summaries
        [{ video_id := "d", gsi1sk := 1704672001, newsletter_sent_at := some 1704672002 }]
        1705276800 = [] := by
  refine ⟨?_, by decide, by decide, by decide⟩
  intro items now s
  simp [get_weekly_summaries, weeklyPred, List.mem_filter,
    Option.isNone_iff_eq_none, and_assoc]

theorem mark_sent_foldl_sent_at :
    ∀ (ts : List Int) (s : SummaryItem) (x : Int),
      s.newsletter_sent_at = some x →
      (ts.foldl mark_summary_sent s).newsletter_sent_at = some x := by
  intro ts
  induction ts with
  | nil => intro s x hx; simpa using hx
  | cons a rest ih =>
      intro s x hx
      have hstep : (mark_summary_sent s a).newsletter_sent_at = some x := by
        simp [mark_summary_sent, hx]
      simpa [List.foldl_cons] using ih (mark_summary_sent s a) x hstep

theorem mark_sent_foldl_count :
    ∀ (ts : List Int) (s : SummaryItem) (c : Nat),
      s.newsletter_sent_count = some c →
      (ts.foldl mark_summary_sent s).newsletter_sent_count = some (c + ts.length) := by
  intro ts
  induction ts with
  | nil => intro s c hc; simpa using hc
  | cons a rest ih =>
      intro s c hc
      have hstep : (mark_summary_sent s a).newsletter_sent_count = some (c + 1) := by
        simp [mark_summary_sent, hc]
      rw [List.foldl_cons, ih (mark_summary_sent s a) (c + 1) hstep]
      exact congrArg some (by simp [List.length_cons]; omega)

/-- C9: the first marking call sets `newsletter_sent_at` (keeping an existing
value), every later call in an arbitrary sequence leaves it at the value
after the first call, and `newsletter_sent_count` (0 when absent) goes up by
exactly 1 on every call. -/
theorem mark_sent_idempotent_timestamp
    (s : SummaryItem) (t : Int) (ts : List Int) :
    (mark_summary_sent s t).newsletter_sent_at = some (s.newsletter_sent_at.getD t)
    ∧ (ts.foldl mark_summary_sent (mark_summary_sent s t)).newsletter_sent_at
        = (mark_summary_sent s t).newsletter_sent_at
    ∧ (mark_summary_sent s t).newsletter_sent_count
        = some (s.newsletter_sent_count.getD 0 + 1)
    ∧ (ts.foldl mark_summary_sent (mark_summary_sent s t)).newsletter_sent_count
        = some (s.newsletter_sent_count.getD 0 + 1 + ts.length) := by
  refine ⟨rfl, ?_, rfl, ?_⟩
  · exact mark_sent_foldl_sent_at ts (mark_summary_sent s t) _ rfl
  · exact mark_sent_foldl_count ts (mark_summary_sent s t) _ rfl

end VidScribe
